import Mathlib

/-!
Shallow embedding of the inventory-adjustment and transaction-ledger core of
the `inventory-v1` backend (files `app/services/inventory_service.py`,
`app/services/inventory_transaction_service.py`, schemas in
`app/schemas/inventory.py` and `app/schemas/inventory_transaction.py`).

The SQLAlchemy session is modelled as an explicit `Db` state holding the list
of inventory rows and ledger rows plus the autoincrement counter for
transaction ids; each service function becomes a pure function
`Db → ... → Db × result`.  `query(...).filter(Model.id == x).first()` becomes
`List.find?`, mutating the found ORM row becomes replacing the first matching
row, `order_by(created_at.desc())` becomes a sort by `created_at` descending,
and `offset(skip).limit(limit)` becomes `drop`/`take`.  Timestamps are `Nat`;
Python's unbounded integers are `Int`.
-/

namespace InventoryV1

/-- A row of the `inventory` table (`app/models/inventory.py`). -/
structure Inventory where
  id : Nat
  quantity : Int
  location : String
  product_id : Nat
deriving DecidableEq, Repr

/-- A row of the `inventory_transactions` table
(`app/models/inventory_transaction.py`): `reason` and `performed_by` are
nullable columns, `created_at` a timestamp. -/
structure InventoryTransaction where
  id : Nat
  product_id : Nat
  change_amount : Int
  reason : Option String
  performed_by : Option Nat
  created_at : Nat
deriving DecidableEq, Repr

/-- The database state: inventory rows, ledger rows, and the autoincrement
counter used for new transaction ids. -/
structure Db where
  inventories : List Inventory
  transactions : List InventoryTransaction
  next_transaction_id : Nat
deriving DecidableEq, Repr

/-- Payload of `InventoryTransactionCreate`
(`app/schemas/inventory_transaction.py`). -/
structure InventoryTransactionCreate where
  product_id : Nat
  change_amount : Int
  reason : Option String
  performed_by : Option Nat
deriving DecidableEq, Repr

/-- Payload of `InventoryUpdate` (`app/schemas/inventory.py`): optional
fields; `none` models a field absent from the request
(`model_dump(exclude_unset=True)` drops it). -/
structure InventoryUpdate where
  quantity : Option Int
  location : Option String
deriving DecidableEq, Repr

/-- Payload of `InventoryTransactionUpdate`
(`app/schemas/inventory_transaction.py`): the outer `Option` is
set-vs-unset (`exclude_unset`), the inner one the nullable column value. -/
structure InventoryTransactionUpdate where
  change_amount : Option (Option Int)
  reason : Option (Option String)
  performed_by : Option (Option Nat)
deriving DecidableEq, Repr

/-- Python's `x or d` on an optional string: `None` and the empty string are
falsy and fall back to the default. -/
def pyOrDefault (x : Option String) (d : String) : String :=
  match x with
  | none => d
  | some s => if s = "" then d else s

/-- Replace the first element satisfying `p` by its image under `f`; models
mutating the single ORM row returned by `.first()`. -/
def updateFirst (p : α → Bool) (f : α → α) : List α → List α
  | [] => []
  | x :: xs => if p x then f x :: xs else x :: updateFirst p f xs

/-- `get_inventory_item`: `db.query(Inventory).filter(Inventory.id ==
inventory_id).first()`. -/
def find_inventory (db : Db) (inventory_id : Nat) : Option Inventory :=
  db.inventories.find? (fun r => r.id == inventory_id)

/-- `get_transaction`: first ledger row with the given id. -/
def find_transaction (db : Db) (transaction_id : Nat) : Option InventoryTransaction :=
  db.transactions.find? (fun t => t.id == transaction_id)

/-- `create_transaction` (`inventory_transaction_service.py`): insert a new
ledger row with the next autoincrement id and `created_at := now`. -/
def create_transaction (db : Db) (transaction : InventoryTransactionCreate) (now : Nat) :
    Db × InventoryTransaction :=
  let t : InventoryTransaction :=
    { id := db.next_transaction_id
      product_id := transaction.product_id
      change_amount := transaction.change_amount
      reason := transaction.reason
      performed_by := transaction.performed_by
      created_at := now }
  ({ db with
      transactions := db.transactions ++ [t]
      next_transaction_id := db.next_transaction_id + 1 }, t)

/-- `adjust_inventory_quantity` (`inventory_service.py` lines 61–88): load the
row, add the delta, clamp at zero, persist, and, when requested and the
actual change is non-zero, append a ledger entry carrying the actual change
with `reason or "Quantity adjustment"`. -/
def adjust_inventory_quantity (db : Db) (inventory_id : Nat) (quantity_change : Int)
    (reason : Option String) (performed_by : Option Nat) (create_transaction_flag : Bool)
    (now : Nat) : Db × Option Inventory :=
  match find_inventory db inventory_id with
  | none => (db, none)
  | some r =>
    let old_quantity := r.quantity
    let updated := old_quantity + quantity_change
    -- Ensure quantity doesn't go negative
    let new_quantity := if updated < 0 then 0 else updated
    let actual_change := new_quantity - old_quantity
    let db1 : Db :=
      { db with
          inventories :=
            updateFirst (fun x => x.id == inventory_id)
              (fun x => { x with quantity := new_quantity }) db.inventories }
    if create_transaction_flag ∧ actual_change ≠ 0 then
      let created := create_transaction db1
        { product_id := r.product_id
          change_amount := actual_change
          reason := some (pyOrDefault reason "Quantity adjustment")
          performed_by := performed_by } now
      (created.1, some { r with quantity := new_quantity })
    else
      (db1, some { r with quantity := new_quantity })

/-- `update_inventory_with_transaction` (`inventory_service.py` lines
94–117): persist the caller's absolute quantity directly and append a ledger
entry with the derived delta when it is non-zero. -/
def update_inventory_with_transaction (db : Db) (inventory_id : Nat) (new_quantity : Int)
    (reason : String) (performed_by : Option Nat) (now : Nat) : Db × Option Inventory :=
  match find_inventory db inventory_id with
  | none => (db, none)
  | some r =>
    let old_quantity := r.quantity
    let quantity_change := new_quantity - old_quantity
    let db1 : Db :=
      { db with
          inventories :=
            updateFirst (fun x => x.id == inventory_id)
              (fun x => { x with quantity := new_quantity }) db.inventories }
    if quantity_change ≠ 0 then
      let created := create_transaction db1
        { product_id := r.product_id
          change_amount := quantity_change
          reason := some reason
          performed_by := performed_by } now
      (created.1, some { r with quantity := new_quantity })
    else
      (db1, some { r with quantity := new_quantity })

/-- Apply an `InventoryUpdate` to a row: `setattr` for each field present in
the request, no clamping or validation (`update_inventory_item` body). -/
def apply_inventory_update (u : InventoryUpdate) (r : Inventory) : Inventory :=
  let r1 := match u.quantity with
    | none => r
    | some q => { r with quantity := q }
  match u.location with
  | none => r1
  | some l => { r1 with location := l }

/-- `update_inventory_item` (`inventory_service.py` lines 41–50): find the
row, set each supplied field verbatim, return the updated row (or `none`). -/
def update_inventory_item (db : Db) (inventory_id : Nat) (u : InventoryUpdate) :
    Db × Option Inventory :=
  match find_inventory db inventory_id with
  | none => (db, none)
  | some r =>
    ({ db with
        inventories :=
          updateFirst (fun x => x.id == inventory_id) (apply_inventory_update u)
            db.inventories },
     some (apply_inventory_update u r))

/-- Apply an `InventoryTransactionUpdate` to a ledger row: only fields in
`allowed_fields = {reason, performed_by}` are written; `change_amount` is
dropped from the update set (`update_transaction` body). -/
def apply_transaction_update (u : InventoryTransactionUpdate) (t : InventoryTransaction) :
    InventoryTransaction :=
  let t1 := match u.reason with
    | none => t
    | some v => { t with reason := v }
  match u.performed_by with
  | none => t1
  | some v => { t1 with performed_by := v }

/-- `update_transaction` (`inventory_transaction_service.py` lines 55–70). -/
def update_transaction (db : Db) (transaction_id : Nat) (u : InventoryTransactionUpdate) :
    Db × Option InventoryTransaction :=
  match find_transaction db transaction_id with
  | none => (db, none)
  | some t =>
    ({ db with
        transactions :=
          updateFirst (fun x => x.id == transaction_id) (apply_transaction_update u)
            db.transactions },
     some (apply_transaction_update u t))

/-- Insert a transaction into a list already ordered by `created_at`
descending, keeping it ordered. -/
def insert_desc (t : InventoryTransaction) : List InventoryTransaction →
    List InventoryTransaction
  | [] => [t]
  | u :: us =>
    if u.created_at ≤ t.created_at then t :: u :: us else u :: insert_desc t us

/-- `ORDER BY created_at DESC` (`InventoryTransaction.created_at.desc()`):
sort the selected rows by `created_at`, most recent first. -/
def order_by_created_at_desc : List InventoryTransaction → List InventoryTransaction
  | [] => []
  | t :: ts => insert_desc t (order_by_created_at_desc ts)

/-- `.offset(skip).limit(limit)`. -/
def paginate (skip limit : Nat) (l : List α) : List α :=
  (l.drop skip).take limit

/-- `get_transactions`: all ledger rows, most recent first, paginated. -/
def get_transactions (db : Db) (skip limit : Nat) : List InventoryTransaction :=
  paginate skip limit (order_by_created_at_desc db.transactions)

/-- `get_transactions_by_product`: rows with the given `product_id`, most
recent first, paginated. -/
def get_transactions_by_product (db : Db) (product_id : Nat) (skip limit : Nat) :
    List InventoryTransaction :=
  paginate skip limit
    (order_by_created_at_desc (db.transactions.filter (fun t => t.product_id == product_id)))

/-- `get_transactions_by_user`: rows whose `performed_by` equals the given
user id (SQL `=` is false on NULL, hence `some user_id`), most recent first. -/
def get_transactions_by_user (db : Db) (user_id : Nat) (skip limit : Nat) :
    List InventoryTransaction :=
  paginate skip limit
    (order_by_created_at_desc (db.transactions.filter (fun t => t.performed_by == some user_id)))

/-- `needle` occurs as a contiguous run at the head of `hay`. -/
def starts_with : List Char → List Char → Bool
  | _, [] => true
  | [], _ :: _ => false
  | c :: cs, d :: ds => c == d && starts_with cs ds

/-- `needle` occurs as a contiguous run somewhere in `hay`. -/
def contains_sub : List Char → List Char → Bool
  | [], needle => needle.isEmpty
  | c :: cs, needle => starts_with (c :: cs) needle || contains_sub cs needle

/-- `reason.ilike(f"%\x7bneedle\x7d%")` on a nullable column: case-insensitive
substring containment; NULL matches nothing. -/
def ilike_contains (hay : Option String) (needle : String) : Bool :=
  match hay with
  | none => false
  | some s => contains_sub (s.data.map Char.toLower) (needle.data.map Char.toLower)

/-- `get_transactions_by_reason` (`inventory_transaction_service.py` lines
47–53): rows whose reason contains the filter string ignoring case, most
recent first, paginated. -/
def get_transactions_by_reason (db : Db) (reason : String) (skip limit : Nat) :
    List InventoryTransaction :=
  paginate skip limit
    (order_by_created_at_desc (db.transactions.filter (fun t => ilike_contains t.reason reason)))

/-- Result of `get_product_transaction_summary`. -/
structure TransactionSummary where
  product_id : Nat
  total_in : Int
  total_out : Int
  net_change : Int
  transaction_count : Nat
deriving DecidableEq, Repr

/-- The rows selected by
`query(InventoryTransaction).filter(product_id == product_id).all()`. -/
def transactions_for_product (db : Db) (product_id : Nat) : List InventoryTransaction :=
  db.transactions.filter (fun t => t.product_id == product_id)

/-- `get_product_transaction_summary` (`inventory_transaction_service.py`
lines 81–95). -/
def get_product_transaction_summary (db : Db) (product_id : Nat) : TransactionSummary :=
  let transactions := transactions_for_product db product_id
  let total_in :=
    ((transactions.filter (fun t => decide (t.change_amount > 0))).map
      (fun t => t.change_amount)).sum
  let total_out :=
    ((transactions.filter (fun t => decide (t.change_amount < 0))).map
      (fun t => |t.change_amount|)).sum
  { product_id := product_id
    total_in := total_in
    total_out := total_out
    net_change := total_in - total_out
    transaction_count := transactions.length }

/-- The quantity-never-negative invariant of the data model (§3 of the
design: `quantity (integer, clamped ≥ 0)`). -/
def quantities_nonneg (db : Db) : Prop :=
  ∀ r ∈ db.inventories, 0 ≤ r.quantity

/-- Most-recent-first ordering on ledger rows. -/
def created_at_desc (a b : InventoryTransaction) : Prop :=
  b.created_at ≤ a.created_at

/-! ### Helper lemmas -/

theorem find?_updateFirst {α : Type _} (p : α → Bool) (f : α → α)
    (hf : ∀ a, p a = true → p (f a) = true) :
    ∀ l : List α, (updateFirst p f l).find? p = (l.find? p).map f := by
  intro l
  induction l with
  | nil => rfl
  | cons x xs ih =>
    by_cases hx : p x = true
    · rw [updateFirst, if_pos hx, List.find?_cons_of_pos _ (hf x hx),
        List.find?_cons_of_pos _ hx, Option.map_some']
    · have hx' : p x = false := by simpa using hx
      rw [updateFirst, if_neg (by simp [hx']), List.find?_cons_of_neg _ (by simp [hx']),
        List.find?_cons_of_neg _ (by simp [hx']), ih]

theorem forall_mem_updateFirst {α : Type _} {Q : α → Prop} (p : α → Bool) (f : α → α)
    (hf : ∀ a, Q a → Q (f a)) :
    ∀ l : List α, (∀ a ∈ l, Q a) → ∀ a ∈ updateFirst p f l, Q a := by
  intro l
  induction l with
  | nil => intro _ a ha; simp [updateFirst] at ha
  | cons x xs ih =>
    intro hl a ha
    rw [updateFirst] at ha
    split at ha
    · rcases List.mem_cons.mp ha with h | h
      · exact h ▸ hf x (hl x (List.mem_cons_self _ _))
      · exact hl a (List.mem_cons_of_mem _ h)
    · rcases List.mem_cons.mp ha with h | h
      · exact h ▸ hl x (List.mem_cons_self _ _)
      · exact ih (fun b hb => hl b (List.mem_cons_of_mem _ hb)) a h

theorem ite_neg_clamp (x : Int) : (if x < 0 then 0 else x) = max 0 x := by
  rcases lt_or_le x 0 with h | h
  · rw [if_pos h, max_eq_left h.le]
  · rw [if_neg (not_lt.mpr h), max_eq_right h]

theorem find_inventory_updateFirst (db : Db) (inventory_id : Nat) (f : Inventory → Inventory)
    (hf : ∀ a, (f a).id = a.id) (r : Inventory) (h : find_inventory db inventory_id = some r)
    (ts : List InventoryTransaction) (n : Nat) :
    find_inventory
      { inventories := updateFirst (fun x => x.id == inventory_id) f db.inventories
        transactions := ts, next_transaction_id := n } inventory_id
      = some (f r) := by
  unfold find_inventory at h ⊢
  rw [find?_updateFirst (fun x => x.id == inventory_id) f
    (fun a ha => by show ((f a).id == inventory_id) = true; rw [hf a]; exact ha)
    db.inventories, h, Option.map_some']

theorem find_inventory_updateFirst_quantity (db : Db) (inventory_id : Nat) (q : Int)
    (r : Inventory) (h : find_inventory db inventory_id = some r)
    (ts : List InventoryTransaction) (n : Nat) :
    find_inventory
      { inventories :=
          updateFirst (fun x => x.id == inventory_id) (fun x => { x with quantity := q })
            db.inventories
        transactions := ts, next_transaction_id := n } inventory_id
      = some { r with quantity := q } :=
  find_inventory_updateFirst db inventory_id (fun x => { x with quantity := q })
    (fun _ => rfl) r h ts n

theorem apply_inventory_update_id (u : InventoryUpdate) (r : Inventory) :
    (apply_inventory_update u r).id = r.id := by
  unfold apply_inventory_update
  cases u.quantity <;> cases u.location <;> rfl

/-! ### Concrete states for the worked examples -/

/-- Example inventory row with quantity 10. -/
def exInv : Inventory := { id := 1, quantity := 10, location := "A1", product_id := 7 }

/-- Example database: one inventory row, empty ledger. -/
def exDb : Db := { inventories := [exInv], transactions := [], next_transaction_id := 0 }

/-! ### Claims -/

/-- C1: for an existing inventory record with quantity `q`,
`adjust_by_delta` stores `max 0 (q + delta)`; when `record_transaction` is
true and the actual change `new − q` is non-zero it appends exactly one
ledger entry whose `change_amount` is that actual change (never the raw
delta), with reason defaulted to `"Quantity adjustment"` when the caller
supplies none; otherwise the ledger is unchanged. -/
theorem adjust_by_delta_spec (db : Db) (inventory_id : Nat) (delta : Int)
    (reason : Option String) (performed_by : Option Nat) (flag : Bool) (now : Nat)
    (r : Inventory) (h : find_inventory db inventory_id = some r) :
    (adjust_inventory_quantity db inventory_id delta reason performed_by flag now).2
        = some { r with quantity := max 0 (r.quantity + delta) } ∧
    find_inventory
        (adjust_inventory_quantity db inventory_id delta reason performed_by flag now).1
        inventory_id
      = some { r with quantity := max 0 (r.quantity + delta) } ∧
    (if flag = true ∧ max 0 (r.quantity + delta) - r.quantity ≠ 0 then
      (adjust_inventory_quantity db inventory_id delta reason performed_by flag now).1.transactions
        = db.transactions ++
          [{ id := db.next_transaction_id
             product_id := r.product_id
             change_amount := max 0 (r.quantity + delta) - r.quantity
             reason := some (pyOrDefault reason "Quantity adjustment")
             performed_by := performed_by
             created_at := now }]
    else
      (adjust_inventory_quantity db inventory_id delta reason performed_by flag now).1.transactions
        = db.transactions) := by
  unfold adjust_inventory_quantity
  rw [h]
  simp only [ite_neg_clamp, create_transaction]
  by_cases hc : flag = true ∧ max 0 (r.quantity + delta) - r.quantity ≠ 0
  · rw [if_pos hc, if_pos hc]
    refine ⟨rfl, ?_, rfl⟩
    exact find_inventory_updateFirst_quantity db inventory_id _ r h _ _
  · rw [if_neg hc, if_neg hc]
    refine ⟨rfl, ?_, rfl⟩
    exact find_inventory_updateFirst_quantity db inventory_id _ r h _ _

/-- Witness for C1 on the spec's example: quantity 10, delta −20 gives new
quantity 0 and a single ledger entry with change −10 and the defaulted
reason. -/
theorem adjust_by_delta_spec_witness :
    find_inventory exDb 1 = some exInv ∧
    ((adjust_inventory_quantity exDb 1 (-20) none none true 0).2
        = some { exInv with quantity := max 0 (exInv.quantity + (-20)) } ∧
      find_inventory (adjust_inventory_quantity exDb 1 (-20) none none true 0).1 1
        = some { exInv with quantity := max 0 (exInv.quantity + (-20)) } ∧
      (if (true : Bool) = true ∧ max 0 (exInv.quantity + (-20)) - exInv.quantity ≠ 0 then
        (adjust_inventory_quantity exDb 1 (-20) none none true 0).1.transactions
          = exDb.transactions ++
            [{ id := exDb.next_transaction_id
               product_id := exInv.product_id
               change_amount := max 0 (exInv.quantity + (-20)) - exInv.quantity
               reason := some (pyOrDefault none "Quantity adjustment")
               performed_by := none
               created_at := 0 }]
      else
        (adjust_inventory_quantity exDb 1 (-20) none none true 0).1.transactions
          = exDb.transactions)) ∧
    (adjust_inventory_quantity exDb 1 (-20) none none true 0).2
        = some { id := 1, quantity := 0, location := "A1", product_id := 7 } ∧
    (adjust_inventory_quantity exDb 1 (-20) none none true 0).1.transactions
        = [{ id := 0, product_id := 7, change_amount := -10,
             reason := some "Quantity adjustment", performed_by := none, created_at := 0 }] :=
  ⟨by decide, adjust_by_delta_spec exDb 1 (-20) none none true 0 exInv (by decide),
    by decide, by decide⟩

theorem quantities_nonneg_updateFirst (l : List Inventory) (p : Inventory → Bool) (q : Int)
    (hq : 0 ≤ q) (hl : ∀ a ∈ l, 0 ≤ a.quantity) :
    ∀ a ∈ updateFirst p (fun x => { x with quantity := q }) l, 0 ≤ a.quantity :=
  forall_mem_updateFirst p _ (fun _ _ => hq) l hl

/-- C2: starting from a state where all quantities are non-negative, both
adjustment operations — `adjust_by_delta` with an arbitrary delta, and
`set_absolute` with a boundary-validated (≥ 0) new quantity — leave every
stored quantity non-negative. -/
theorem quantity_nonneg_after_adjustment (db : Db) (inventory_id : Nat)
    (delta new_quantity : Int) (reason : Option String) (set_reason : String)
    (performed_by : Option Nat) (flag : Bool) (now : Nat)
    (hdb : quantities_nonneg db) (hnew : 0 ≤ new_quantity) :
    quantities_nonneg
      (adjust_inventory_quantity db inventory_id delta reason performed_by flag now).1 ∧
    quantities_nonneg
      (update_inventory_with_transaction db inventory_id new_quantity set_reason
        performed_by now).1 := by
  have key : ∀ q : Int, 0 ≤ q → ∀ a ∈ updateFirst (fun x => x.id == inventory_id)
      (fun x => { x with quantity := q }) db.inventories, 0 ≤ a.quantity :=
    fun q hq => quantities_nonneg_updateFirst db.inventories _ q hq hdb
  constructor
  · unfold adjust_inventory_quantity
    cases hfind : find_inventory db inventory_id with
    | none => exact hdb
    | some r =>
      simp only [create_transaction]
      split
      · split
        · intro a ha; exact key 0 le_rfl a ha
        · intro a ha; exact key 0 le_rfl a ha
      · rename_i hnotlt
        have h0 : 0 ≤ r.quantity + delta := not_lt.mp hnotlt
        split
        · intro a ha; exact key _ h0 a ha
        · intro a ha; exact key _ h0 a ha
  · unfold update_inventory_with_transaction
    cases hfind : find_inventory db inventory_id with
    | none => exact hdb
    | some r =>
      simp only [create_transaction]
      split
      · intro a ha; exact key _ hnew a ha
      · intro a ha; exact key _ hnew a ha

/-- Witness for C2: the invariant holds concretely after adjusting by −20
and after setting the quantity to 5 on the example state. -/
theorem quantity_nonneg_after_adjustment_witness :
    quantities_nonneg exDb ∧ (0 : Int) ≤ 5 ∧
    (quantities_nonneg (adjust_inventory_quantity exDb 1 (-20) none none true 0).1 ∧
      quantities_nonneg
        (update_inventory_with_transaction exDb 1 5 "Recount" none 0).1) :=
  ⟨by unfold quantities_nonneg; decide, by decide,
    quantity_nonneg_after_adjustment exDb 1 (-20) 5 none "Recount" none true 0
      (by unfold quantities_nonneg; decide) (by decide)⟩

/-- C3 counterexample: on a record with quantity 10, the plain Inventory
Store update with quantity −5 succeeds but stores −5, not 0 — zero-clamping
does not happen on the `update` path. -/
theorem update_negative_quantity_counterexample :
    (update_inventory_item exDb 1 { quantity := some (-5), location := none }).2
        = some { id := 1, quantity := -5, location := "A1", product_id := 7 } ∧
    (find_inventory (update_inventory_item exDb 1
        { quantity := some (-5), location := none }).1 1).map Inventory.quantity
        = some (-5) ∧
    ((-5 : Int) ≠ 0) := by
  decide

/-- C3 (amended): `update(id, {quantity})` never fails with a
"quantity would be negative" error — it succeeds for any supplied quantity,
including negative ones — but it stores the supplied value verbatim with no
clamping; zero-clamping applies only on the adjustment path, where the
stored quantity `max 0 (q + delta)` is never negative. -/
theorem update_item_stores_value_verbatim (db : Db) (inventory_id : Nat) (q : Int)
    (loc : Option String) (delta : Int) (reason : Option String)
    (performed_by : Option Nat) (flag : Bool) (now : Nat) (r : Inventory)
    (h : find_inventory db inventory_id = some r) :
    (update_inventory_item db inventory_id { quantity := some q, location := loc }).2
        = some (apply_inventory_update { quantity := some q, location := loc } r) ∧
    (apply_inventory_update { quantity := some q, location := loc } r).quantity = q ∧
    find_inventory
        (update_inventory_item db inventory_id { quantity := some q, location := loc }).1
        inventory_id
      = some (apply_inventory_update { quantity := some q, location := loc } r) ∧
    (adjust_inventory_quantity db inventory_id delta reason performed_by flag now).2
        = some { r with quantity := max 0 (r.quantity + delta) } ∧
    0 ≤ max 0 (r.quantity + delta) := by
  refine ⟨?_, ?_, ?_, ?_, le_max_left 0 _⟩
  · unfold update_inventory_item
    rw [h]
  · unfold apply_inventory_update
    cases loc <;> rfl
  · unfold update_inventory_item
    rw [h]
    exact find_inventory_updateFirst db inventory_id _
      (fun a => apply_inventory_update_id _ a) r h _ _
  · unfold adjust_inventory_quantity
    rw [h]
    simp only [ite_neg_clamp, create_transaction]
    split <;> rfl

/-- Witness for C3 (amended) at quantity −5 on the example state. -/
theorem update_item_stores_value_verbatim_witness :
    find_inventory exDb 1 = some exInv ∧
    ((update_inventory_item exDb 1 { quantity := some (-5), location := none }).2
        = some (apply_inventory_update { quantity := some (-5), location := none } exInv) ∧
    (apply_inventory_update { quantity := some (-5), location := none } exInv).quantity = -5 ∧
    find_inventory
        (update_inventory_item exDb 1 { quantity := some (-5), location := none }).1 1
      = some (apply_inventory_update { quantity := some (-5), location := none } exInv) ∧
    (adjust_inventory_quantity exDb 1 (-20) (some "cycle count") none false 0).2
        = some { exInv with quantity := max 0 (exInv.quantity + (-20)) } ∧
    0 ≤ max 0 (exInv.quantity + (-20))) :=
  ⟨by decide,
    update_item_stores_value_verbatim exDb 1 (-5) none (-20) (some "cycle count")
      none false 0 exInv (by decide)⟩

/-- C4: for an existing record with quantity `q`, `set_absolute` persists the
new quantity directly and appends exactly one ledger entry with
`change_amount = new_quantity − q` and the caller-supplied reason when
`new_quantity ≠ q`; when they are equal the ledger is unchanged. -/
theorem set_absolute_spec (db : Db) (inventory_id : Nat) (new_quantity : Int)
    (reason : String) (performed_by : Option Nat) (now : Nat) (r : Inventory)
    (h : find_inventory db inventory_id = some r) :
    (update_inventory_with_transaction db inventory_id new_quantity reason
        performed_by now).2 = some { r with quantity := new_quantity } ∧
    find_inventory
        (update_inventory_with_transaction db inventory_id new_quantity reason
          performed_by now).1 inventory_id
      = some { r with quantity := new_quantity } ∧
    (if new_quantity ≠ r.quantity then
      (update_inventory_with_transaction db inventory_id new_quantity reason
          performed_by now).1.transactions
        = db.transactions ++
          [{ id := db.next_transaction_id
             product_id := r.product_id
             change_amount := new_quantity - r.quantity
             reason := some reason
             performed_by := performed_by
             created_at := now }]
    else
      (update_inventory_with_transaction db inventory_id new_quantity reason
          performed_by now).1.transactions
        = db.transactions) := by
  unfold update_inventory_with_transaction
  rw [h]
  simp only [create_transaction]
  by_cases hc : new_quantity - r.quantity ≠ 0
  · rw [if_pos hc, if_pos (sub_ne_zero.mp hc)]
    exact ⟨rfl, find_inventory_updateFirst_quantity db inventory_id _ r h _ _, rfl⟩
  · rw [if_neg hc, if_neg (fun hne => hc (sub_ne_zero.mpr hne))]
    exact ⟨rfl, find_inventory_updateFirst_quantity db inventory_id _ r h _ _, rfl⟩

/-- Example inventory row with quantity 75. -/
def exInv75 : Inventory := { id := 2, quantity := 75, location := "B2", product_id := 8 }

/-- Example database around `exInv75`. -/
def exDb75 : Db := { inventories := [exInv75], transactions := [], next_transaction_id := 0 }

/-- Witness for C4 on the spec's example: `set_absolute(75)` on a record that
already holds 75 creates no ledger entry. -/
theorem set_absolute_spec_witness :
    find_inventory exDb75 2 = some exInv75 ∧
    ((update_inventory_with_transaction exDb75 2 75 "Recount" none 0).2
        = some { exInv75 with quantity := 75 } ∧
      find_inventory (update_inventory_with_transaction exDb75 2 75 "Recount" none 0).1 2
        = some { exInv75 with quantity := 75 } ∧
      (if (75 : Int) ≠ exInv75.quantity then
        (update_inventory_with_transaction exDb75 2 75 "Recount" none 0).1.transactions
          = exDb75.transactions ++
            [{ id := exDb75.next_transaction_id
               product_id := exInv75.product_id
               change_amount := 75 - exInv75.quantity
               reason := some "Recount"
               performed_by := none
               created_at := 0 }]
      else
        (update_inventory_with_transaction exDb75 2 75 "Recount" none 0).1.transactions
          = exDb75.transactions)) ∧
    (update_inventory_with_transaction exDb75 2 75 "Recount" none 0).1.transactions = [] :=
  ⟨by decide, set_absolute_spec exDb75 2 75 "Recount" none 0 exInv75 (by decide), by decide⟩

theorem apply_transaction_update_id (u : InventoryTransactionUpdate)
    (t : InventoryTransaction) : (apply_transaction_update u t).id = t.id := by
  unfold apply_transaction_update
  cases u.reason <;> cases u.performed_by <;> rfl

theorem apply_transaction_update_change_amount (u : InventoryTransactionUpdate)
    (t : InventoryTransaction) :
    (apply_transaction_update u t).change_amount = t.change_amount := by
  unfold apply_transaction_update
  cases u.reason <;> cases u.performed_by <;> rfl

theorem find_transaction_updateFirst (db : Db) (transaction_id : Nat)
    (f : InventoryTransaction → InventoryTransaction) (hf : ∀ a, (f a).id = a.id)
    (t : InventoryTransaction) (h : find_transaction db transaction_id = some t)
    (invs : List Inventory) (n : Nat) :
    find_transaction
      { inventories := invs
        transactions := updateFirst (fun x => x.id == transaction_id) f db.transactions
        next_transaction_id := n } transaction_id
      = some (f t) := by
  unfold find_transaction at h ⊢
  rw [find?_updateFirst (fun x => x.id == transaction_id) f
    (fun a ha => by show ((f a).id == transaction_id) = true; rw [hf a]; exact ha)
    db.transactions, h, Option.map_some']

/-- C5: the ledger update path never alters a stored `change_amount` — the
field is dropped from the update set — while a `reason` or `performed_by`
present in the request is applied, and the request is not rejected. -/
theorem update_transaction_preserves_change_amount (db : Db) (transaction_id : Nat)
    (u : InventoryTransactionUpdate) (t : InventoryTransaction)
    (h : find_transaction db transaction_id = some t) :
    (update_transaction db transaction_id u).2 = some (apply_transaction_update u t) ∧
    find_transaction (update_transaction db transaction_id u).1 transaction_id
        = some (apply_transaction_update u t) ∧
    (apply_transaction_update u t).change_amount = t.change_amount ∧
    (∀ v, u.reason = some v → (apply_transaction_update u t).reason = v) ∧
    (∀ v, u.performed_by = some v → (apply_transaction_update u t).performed_by = v) := by
  refine ⟨?_, ?_, apply_transaction_update_change_amount u t, ?_, ?_⟩
  · unfold update_transaction
    rw [h]
  · unfold update_transaction
    rw [h]
    exact find_transaction_updateFirst db transaction_id _
      (fun a => apply_transaction_update_id u a) t h _ _
  · intro v hv
    unfold apply_transaction_update
    rw [hv]
    cases u.performed_by <;> rfl
  · intro v hv
    unfold apply_transaction_update
    rw [hv]

/-- Example ledger row with change 20. -/
def exTx : InventoryTransaction :=
  { id := 3, product_id := 7, change_amount := 20, reason := some "Initial stock"
    performed_by := none, created_at := 5 }

/-- Example database around `exTx`. -/
def exDbTx : Db := { inventories := [], transactions := [exTx], next_transaction_id := 4 }

/-- Witness for C5 on the spec's example: stored change 20, request
`{change_amount: 999, reason: "x"}` leaves change 20 and sets the reason. -/
theorem update_transaction_preserves_change_amount_witness :
    find_transaction exDbTx 3 = some exTx ∧
    ((update_transaction exDbTx 3
          { change_amount := some (some 999), reason := some (some "x"),
            performed_by := none }).2
        = some (apply_transaction_update
            { change_amount := some (some 999), reason := some (some "x"),
              performed_by := none } exTx) ∧
      find_transaction (update_transaction exDbTx 3
          { change_amount := some (some 999), reason := some (some "x"),
            performed_by := none }).1 3
        = some (apply_transaction_update
            { change_amount := some (some 999), reason := some (some "x"),
              performed_by := none } exTx) ∧
      (apply_transaction_update
          { change_amount := some (some 999), reason := some (some "x"),
            performed_by := none } exTx).change_amount = exTx.change_amount ∧
      (∀ v, (some (some "x") : Option (Option String)) = some v →
        (apply_transaction_update
            { change_amount := some (some 999), reason := some (some "x"),
              performed_by := none } exTx).reason = v) ∧
      (∀ v, (none : Option (Option Nat)) = some v →
        (apply_transaction_update
            { change_amount := some (some 999), reason := some (some "x"),
              performed_by := none } exTx).performed_by = v)) ∧
    (update_transaction exDbTx 3
        { change_amount := some (some 999), reason := some (some "x"),
          performed_by := none }).2
      = some { id := 3, product_id := 7, change_amount := 20, reason := some "x"
               performed_by := none, created_at := 5 } :=
  ⟨by decide,
    update_transaction_preserves_change_amount exDbTx 3
      { change_amount := some (some 999), reason := some (some "x"), performed_by := none }
      exTx (by decide),
    by decide⟩

/-- C9: when the inventory id does not exist, both adjustment entry points
return the not-found signal and leave the whole state (inventory rows and
ledger) unchanged, for any arguments. -/
theorem adjust_not_found_no_effect (db : Db) (inventory_id : Nat)
    (delta new_quantity : Int) (reason : Option String) (set_reason : String)
    (performed_by : Option Nat) (flag : Bool) (now : Nat)
    (h : find_inventory db inventory_id = none) :
    adjust_inventory_quantity db inventory_id delta reason performed_by flag now
        = (db, none) ∧
    update_inventory_with_transaction db inventory_id new_quantity set_reason
        performed_by now = (db, none) := by
  unfold adjust_inventory_quantity update_inventory_with_transaction
  rw [h]
  exact ⟨rfl, rfl⟩

/-- Witness for C9: adjusting or setting the quantity of the missing id 99
returns `none` and leaves the example state untouched. -/
theorem adjust_not_found_no_effect_witness :
    find_inventory exDb 99 = none ∧
    (adjust_inventory_quantity exDb 99 (-20) none none true 0 = (exDb, none) ∧
      update_inventory_with_transaction exDb 99 5 "Recount" none 0 = (exDb, none)) :=
  ⟨by decide, adjust_not_found_no_effect exDb 99 (-20) 5 none "Recount" none true 0
    (by decide)⟩

theorem sum_pos_filter (ts : List InventoryTransaction) :
    ((ts.filter (fun t => decide (t.change_amount > 0))).map
        (fun t => t.change_amount)).sum
      = (ts.map (fun t => max 0 t.change_amount)).sum := by
  induction ts with
  | nil => rfl
  | cons t ts ih =>
    by_cases hc : t.change_amount > 0
    · rw [List.filter_cons_of_pos (by simpa using hc), List.map_cons, List.sum_cons, ih,
        List.map_cons, List.sum_cons, max_eq_right hc.le]
    · rw [List.filter_cons_of_neg (by simpa using hc), ih, List.map_cons, List.sum_cons,
        max_eq_left (le_of_not_lt hc), zero_add]

theorem sum_neg_abs_filter (ts : List InventoryTransaction) :
    ((ts.filter (fun t => decide (t.change_amount < 0))).map
        (fun t => |t.change_amount|)).sum
      = (ts.map (fun t => max 0 (-t.change_amount))).sum := by
  induction ts with
  | nil => rfl
  | cons t ts ih =>
    by_cases hc : t.change_amount < 0
    · rw [List.filter_cons_of_pos (by simpa using hc), List.map_cons, List.sum_cons, ih,
        List.map_cons, List.sum_cons, abs_of_neg hc,
        max_eq_right (neg_nonneg.mpr hc.le)]
    · rw [List.filter_cons_of_neg (by simpa using hc), ih, List.map_cons, List.sum_cons,
        max_eq_left (neg_nonpos.mpr (le_of_not_lt hc)), zero_add]

/-- C6: the summary's `total_in` is the sum of the positive parts of the
product's change amounts, `total_out` the sum of the positive parts of their
negations (the absolute values of the negative ones), `net_change` their
difference, `transaction_count` the number of the product's ledger rows, and
a product with no ledger rows gets the all-zero summary rather than an
error. -/
theorem summarize_spec (db : Db) (product_id : Nat) :
    (get_product_transaction_summary db product_id).total_in
        = ((transactions_for_product db product_id).map
            (fun t => max 0 t.change_amount)).sum ∧
    (get_product_transaction_summary db product_id).total_out
        = ((transactions_for_product db product_id).map
            (fun t => max 0 (-t.change_amount))).sum ∧
    (get_product_transaction_summary db product_id).net_change
        = (get_product_transaction_summary db product_id).total_in
            - (get_product_transaction_summary db product_id).total_out ∧
    (get_product_transaction_summary db product_id).transaction_count
        = (transactions_for_product db product_id).length ∧
    (get_product_transaction_summary db product_id).product_id = product_id ∧
    (transactions_for_product db product_id = [] →
      get_product_transaction_summary db product_id
        = { product_id := product_id, total_in := 0, total_out := 0,
            net_change := 0, transaction_count := 0 }) := by
  refine ⟨sum_pos_filter _, sum_neg_abs_filter _, rfl, rfl, rfl, ?_⟩
  intro he
  unfold get_product_transaction_summary
  rw [he]
  rfl

/-- Example ledger for the summary example: product 1 has changes +10, −3,
+5; the witness also queries the empty product 999. -/
def exDbSum : Db :=
  { inventories := []
    transactions :=
      [{ id := 0, product_id := 1, change_amount := 10, reason := none,
         performed_by := none, created_at := 1 },
       { id := 1, product_id := 1, change_amount := -3, reason := none,
         performed_by := none, created_at := 2 },
       { id := 2, product_id := 1, change_amount := 5, reason := none,
         performed_by := none, created_at := 3 }]
    next_transaction_id := 3 }

/-- Witness for C6 on the spec's examples: changes [+10, −3, +5] give
(total_in, total_out, net_change, count) = (15, 3, 12, 3) and the unknown
product 999 gets the all-zero summary. -/
theorem summarize_spec_witness :
    get_product_transaction_summary exDbSum 1
        = { product_id := 1, total_in := 15, total_out := 3, net_change := 12,
            transaction_count := 3 } ∧
    get_product_transaction_summary exDbSum 999
        = { product_id := 999, total_in := 0, total_out := 0, net_change := 0,
            transaction_count := 0 } ∧
    ((get_product_transaction_summary exDbSum 1).total_in
        = ((transactions_for_product exDbSum 1).map
            (fun t => max 0 t.change_amount)).sum ∧
      (get_product_transaction_summary exDbSum 1).total_out
        = ((transactions_for_product exDbSum 1).map
            (fun t => max 0 (-t.change_amount))).sum ∧
      (get_product_transaction_summary exDbSum 1).net_change
        = (get_product_transaction_summary exDbSum 1).total_in
            - (get_product_transaction_summary exDbSum 1).total_out ∧
      (get_product_transaction_summary exDbSum 1).transaction_count
        = (transactions_for_product exDbSum 1).length ∧
      (get_product_transaction_summary exDbSum 1).product_id = 1 ∧
      (transactions_for_product exDbSum 1 = [] →
        get_product_transaction_summary exDbSum 1
          = { product_id := 1, total_in := 0, total_out := 0,
              net_change := 0, transaction_count := 0 })) :=
  ⟨by decide, by decide, summarize_spec exDbSum 1⟩

theorem sum_max_sub_sum_max_neg (l : List InventoryTransaction) :
    (l.map (fun t => max 0 t.change_amount)).sum
        - (l.map (fun t => max 0 (-t.change_amount))).sum
      = (l.map (fun t => t.change_amount)).sum := by
  induction l with
  | nil => rfl
  | cons t ts ih =>
    simp only [List.map_cons, List.sum_cons]
    have hpoint : max 0 t.change_amount - max 0 (-t.change_amount) = t.change_amount := by
      rcases le_total t.change_amount 0 with h | h
      · rw [max_eq_left h, max_eq_right (neg_nonneg.mpr h)]
        ring
      · rw [max_eq_right h, max_eq_left (neg_nonpos.mpr h)]
        ring
    rw [add_sub_add_comm, hpoint, ih]

/-- C10: the summary's `net_change` equals the plain sum of all of the
product's change amounts — splitting the ledger into inflow and outflow and
recombining loses nothing. -/
theorem net_change_eq_sum_change (db : Db) (product_id : Nat) :
    (get_product_transaction_summary db product_id).net_change
      = ((transactions_for_product db product_id).map
          (fun t => t.change_amount)).sum := by
  have hrepr : (get_product_transaction_summary db product_id).net_change
      = ((transactions_for_product db product_id).map
          (fun t => max 0 t.change_amount)).sum
        - ((transactions_for_product db product_id).map
            (fun t => max 0 (-t.change_amount))).sum := by
    show _ - _ = _
    rw [sum_pos_filter, sum_neg_abs_filter]
  rw [hrepr, sum_max_sub_sum_max_neg]

theorem mem_insert_desc {a t : InventoryTransaction} :
    ∀ {l : List InventoryTransaction}, a ∈ insert_desc t l ↔ a = t ∨ a ∈ l := by
  intro l
  induction l with
  | nil => simp [insert_desc]
  | cons u us ih =>
    rw [insert_desc]
    split
    · simp [List.mem_cons]
    · rw [List.mem_cons, ih, List.mem_cons]
      tauto

theorem pairwise_insert_desc (t : InventoryTransaction) (l : List InventoryTransaction)
    (hl : l.Pairwise created_at_desc) :
    (insert_desc t l).Pairwise created_at_desc := by
  induction l with
  | nil => simp [insert_desc]
  | cons u us ih =>
    rw [List.pairwise_cons] at hl
    rw [insert_desc]
    split
    · rename_i hle
      rw [List.pairwise_cons]
      refine ⟨?_, List.pairwise_cons.mpr hl⟩
      intro b hb
      rcases List.mem_cons.mp hb with rfl | hbus
      · exact hle
      · exact le_trans (hl.1 b hbus) hle
    · rename_i hgt
      rw [List.pairwise_cons]
      refine ⟨?_, ih hl.2⟩
      intro b hb
      rcases mem_insert_desc.mp hb with rfl | hbus
      · exact le_of_lt (lt_of_not_le hgt)
      · exact hl.1 b hbus

theorem pairwise_order_by (l : List InventoryTransaction) :
    (order_by_created_at_desc l).Pairwise created_at_desc := by
  induction l with
  | nil => exact List.Pairwise.nil
  | cons t ts ih => exact pairwise_insert_desc t _ ih

theorem pairwise_paginate (skip limit : Nat) (l : List InventoryTransaction)
    (hl : l.Pairwise created_at_desc) :
    (paginate skip limit l).Pairwise created_at_desc :=
  List.Pairwise.sublist (((l.drop skip).take_sublist limit).trans (l.drop_sublist skip)) hl

/-- C7: every transaction list query — the default listing and the
product, user and reason filtered variants — returns its rows ordered by
`created_at` descending (each row is no older than the rows after it). -/
theorem transactions_listed_desc (db : Db) (skip limit product_id user_id : Nat)
    (reason : String) :
    (get_transactions db skip limit).Pairwise created_at_desc ∧
    (get_transactions_by_product db product_id skip limit).Pairwise created_at_desc ∧
    (get_transactions_by_user db user_id skip limit).Pairwise created_at_desc ∧
    (get_transactions_by_reason db reason skip limit).Pairwise created_at_desc :=
  ⟨pairwise_paginate _ _ _ (pairwise_order_by _),
    pairwise_paginate _ _ _ (pairwise_order_by _),
    pairwise_paginate _ _ _ (pairwise_order_by _),
    pairwise_paginate _ _ _ (pairwise_order_by _)⟩

theorem mem_order_by {a : InventoryTransaction} :
    ∀ {l : List InventoryTransaction}, a ∈ order_by_created_at_desc l ↔ a ∈ l := by
  intro l
  induction l with
  | nil => simp [order_by_created_at_desc]
  | cons t ts ih =>
    rw [order_by_created_at_desc, mem_insert_desc, List.mem_cons, ih]

theorem length_insert_desc (t : InventoryTransaction) :
    ∀ l : List InventoryTransaction, (insert_desc t l).length = l.length + 1 := by
  intro l
  induction l with
  | nil => rfl
  | cons u us ih =>
    rw [insert_desc]
    split
    · rfl
    · rw [List.length_cons, ih, List.length_cons]

theorem length_order_by (l : List InventoryTransaction) :
    (order_by_created_at_desc l).length = l.length := by
  induction l with
  | nil => rfl
  | cons t ts ih =>
    rw [order_by_created_at_desc, length_insert_desc, ih, List.length_cons]

/-- C8: with the full result window (skip 0, limit at least the table
size), a transaction is returned by the reason filter exactly when the
filter string occurs in its reason ignoring case. -/
theorem reason_filter_case_insensitive (db : Db) (filter_str : String) (limit : Nat)
    (t : InventoryTransaction) (hmem : t ∈ db.transactions)
    (hlim : db.transactions.length ≤ limit) :
    t ∈ get_transactions_by_reason db filter_str 0 limit ↔
      ilike_contains t.reason filter_str = true := by
  unfold get_transactions_by_reason paginate
  rw [List.drop_zero, List.take_of_length_le, mem_order_by, List.mem_filter]
  · constructor
    · exact fun h => h.2
    · exact fun h => ⟨hmem, h⟩
  · rw [length_order_by]
    exact le_trans (db.transactions.length_filter_le _) hlim

/-- Example ledger row whose reason is "Sale". -/
def exTxSale : InventoryTransaction :=
  { id := 0, product_id := 1, change_amount := -2, reason := some "Sale"
    performed_by := none, created_at := 1 }

/-- Example database around `exTxSale`. -/
def exDbSale : Db := { inventories := [], transactions := [exTxSale], next_transaction_id := 1 }

/-- Witness for C8 on the spec's example: the reason "Sale" matches the
filters "sale" and "SALE". -/
theorem reason_filter_case_insensitive_witness :
    exTxSale ∈ exDbSale.transactions ∧ exDbSale.transactions.length ≤ 100 ∧
    (exTxSale ∈ get_transactions_by_reason exDbSale "sale" 0 100 ↔
      ilike_contains exTxSale.reason "sale" = true) ∧
    exTxSale ∈ get_transactions_by_reason exDbSale "SALE" 0 100 ∧
    ilike_contains exTxSale.reason "sale" = true ∧
    ilike_contains exTxSale.reason "SALE" = true ∧
    ilike_contains exTxSale.reason "order" = false :=
  ⟨by decide, by decide,
    reason_filter_case_insensitive exDbSale "sale" 100 exTxSale (by decide) (by decide),
    by decide, by decide, by decide, by decide⟩

end InventoryV1
